import Mathlib

/-!
Shallow embedding of the image-processing core of `web.py` (PassportPhotoMaker).

The pipeline functions `remove_background`, `detect_face_and_crop`,
`resize_and_center_image`, `add_background`, `add_background1` and
`process_image` are translated from the Python source.  The external world
(the filesystem, the rembg matting model, the PIL image decoder, the MTCNN
face detector, the JPEG encoder) is a record `Env` of opaque-to-the-code
functions; the two availability flags mirror the module-level
`REMBG_AVAILABLE` and `MTCNN_AVAILABLE` constants.  Images are modelled by
their pixel dimensions, which is all the arithmetic of the pipeline
inspects; Python floats are modelled by exact rationals and Python `int()`
truncation by `pyInt`.  Python exceptions are modelled with `Except`.
-/

/-- Python `int(q)` on a float/rational: truncation toward zero. -/
def pyInt (q : ℚ) : Int := if 0 ≤ q then ⌊q⌋ else ⌈q⌉

/-- Python `s.startswith(c)` for a one-character needle, computed on the
character list of the string. -/
def strHeadIs (s : String) (c : Char) : Bool :=
  match s.data with
  | [] => false
  | d :: _ => d = c

/-- Whether a string ends with the path separator. -/
def strLastIs (s : String) (c : Char) : Bool :=
  match s.data.getLast? with
  | none => false
  | some d => d = c

/-- POSIX `os.path.join a b`: a later absolute component discards the
earlier components; otherwise the parts are joined with a separator. -/
def osPathJoin (a b : String) : String :=
  if strHeadIs b '/' then b
  else if a = "" ∨ strLastIs a '/' then a ++ b
  else a ++ "/" ++ b

/-- File contents, as a byte list. -/
def ByteData : Type := List Nat

instance : DecidableEq ByteData := by
  unfold ByteData
  infer_instance

/-- A PIL image, modelled by its dimensions (`img.width`, `img.height`). -/
structure PILImage where
  width : Nat
  height : Nat
deriving DecidableEq

/-- One MTCNN detection: `face['box'] = (x, y, w, h)` and `face['confidence']`. -/
structure Detection where
  x : Int
  y : Int
  w : Int
  h : Int
  confidence : ℚ
deriving DecidableEq

/-- The four crop coordinates `lower_x, lower_y, upper_x, upper_y` computed
in `detect_face_and_crop`; passed to `PIL.Image.crop` in the order
`(lower_x, lower_y, upper_x, upper_y)` = (left, top, right, bottom). -/
structure CropBox where
  lower_x : Int
  lower_y : Int
  upper_x : Int
  upper_y : Int
deriving DecidableEq

/-- `PIL.Image.crop`: the resulting image has size (right - left, bottom - top). -/
def PILImage.crop (_img : PILImage) (b : CropBox) : PILImage :=
  ⟨(b.upper_x - b.lower_x).toNat, (b.upper_y - b.lower_y).toNat⟩

/-- A Python value passed to the pipeline: a filename string, a file-like
upload object carrying a `name` and its byte content, or anything else. -/
inductive PyInput where
  | str (s : String)
  | file (name : String) (content : ByteData)
  | other
deriving DecidableEq

/-- The Python exceptions the pipeline can raise. -/
inductive PyErr where
  | fileNotFound (msg : String)
  | valueError (msg : String)
  | zeroDivisionError (msg : String)
  | attributeError (msg : String)
  | unidentifiedImageError (msg : String)
deriving DecidableEq

/-- The external world of the script: availability flags of the optional
libraries, the filesystem, and the black-box models.  `rembg` is
`rembg.remove(..., alpha_matting=True, alpha_matting_background_threshold=800)`,
`decode` is PIL decoding plus `convert("RGBA")` (`none` means `Image.open`
raises), `detectFaces` is `MTCNN().detect_faces` on the RGB conversion of
the image, and `encodeJpeg` is `Image.save(..., format='jpeg')`. -/
structure Env where
  rembgAvailable : Bool
  mtcnnAvailable : Bool
  fs : String → Option ByteData
  rembg : ByteData → ByteData
  decode : ByteData → Option PILImage
  detectFaces : PILImage → List Detection
  encodeJpeg : PILImage → ByteData

/-- Writing a file: the filesystem maps the path to the new content. -/
def Env.writeFile (env : Env) (path : String) (data : ByteData) : Env :=
  { env with fs := fun p => if p = path then some data else env.fs p }

/-- `PIL.Image.open(v).convert("RGBA")`: a missing path raises
`FileNotFoundError`, an undecodable file raises `UnidentifiedImageError`,
and a value that is neither a path nor a file-like object raises
`AttributeError`. -/
def imageOpen (env : Env) (v : PyInput) : Except PyErr PILImage :=
  match v with
  | .str s =>
    match env.fs s with
    | none => .error (.fileNotFound ("No such file or directory: " ++ s))
    | some content =>
      match env.decode content with
      | none => .error (.unidentifiedImageError ("cannot identify image file " ++ s))
      | some img => .ok img
  | .file n content =>
    match env.decode content with
    | none => .error (.unidentifiedImageError ("cannot identify image file " ++ n))
    | some img => .ok img
  | .other => .error (.attributeError "object has no read method")

/-- `remove_background(input_file)` from `web.py` lines 20-44.  On success
the matted bytes are written to the fixed scratch path
`masked/img_maske.png` and that path is returned (the updated filesystem is
threaded through as the second component). -/
def remove_background (env : Env) (input_file : PyInput) :
    Except PyErr (PyInput × Env) :=
  if env.rembgAvailable = false then
    .ok (input_file, env)
  else
    match input_file with
    | .str s =>
      let input_path := osPathJoin "original" s
      match env.fs input_path with
      | none => .error (.fileNotFound ("The file " ++ input_path ++ " does not exist."))
      | some input_img =>
        let subject := env.rembg input_img
        .ok (.str "masked/img_maske.png",
             env.writeFile "masked/img_maske.png" subject)
    | .file _ input_img =>
      let subject := env.rembg input_img
      .ok (.str "masked/img_maske.png",
           env.writeFile "masked/img_maske.png" subject)
    | .other =>
      .error (.valueError "Input must be a filename string or a file-like object with a name attribute.")

/-- The crop window computed in `detect_face_and_crop` lines 65-70: pad the
detected box by `int(0.9 * side)` on each side, clamp to the image. -/
def paddedCropBounds (img : PILImage) (x y w h : Int) : CropBox :=
  let h_pad := pyInt ((h : ℚ) * 0.9)
  let w_pad := pyInt ((w : ℚ) * 0.9)
  let lower_y := max 0 (y - h_pad)
  let upper_y := min (img.height : Int) (y + h + h_pad)
  let lower_x := max 0 (x - w_pad)
  let upper_x := min (img.width : Int) (x + w + w_pad)
  ⟨lower_x, lower_y, upper_x, upper_y⟩

/-- `detect_face_and_crop(img_path)` from `web.py` lines 46-76.  The result
`Except.ok none` is the Python `None` return value, the no-face sentinel;
note that a non-string argument falls through the single `isinstance`
branch and hits the implicit `return None` at the end of the function. -/
def detect_face_and_crop (env : Env) (img_path : PyInput) :
    Except PyErr (Option PILImage) :=
  if env.mtcnnAvailable = false then
    match imageOpen env img_path with
    | .error e => .error e
    | .ok img => .ok (some img)
  else
    match img_path with
    | .str s =>
      match imageOpen env (.str s) with
      | .error e => .error e
      | .ok foreground_img =>
        let faces := env.detectFaces foreground_img
        let confidence : ℚ := 0.8
        match faces with
        | [] => .ok none
        | face :: _ =>
          if face.confidence > confidence then
            .ok (some (foreground_img.crop
              (paddedCropBounds foreground_img face.x face.y face.w face.h)))
          else
            .ok none
    | _ => .ok none

/-- The value returned by `resize_and_center_image`: the transparent canvas
`new_img` of exactly `target_size`, together with the dimensions of the
scaled image `resized_img` and the centering offsets used by `paste`. -/
structure CenteredCanvas where
  canvas : PILImage
  resized : PILImage
  paste_x : Int
  paste_y : Int
deriving DecidableEq

/-- `resize_and_center_image(img, target_size)` from `web.py` lines 78-96.
`none` models a `ZeroDivisionError`: a zero image height, a zero target
height, or (in the `else` branch) a zero aspect ratio. -/
def resize_and_center_image (img : PILImage) (target_size : Nat × Nat) :
    Option CenteredCanvas :=
  if img.height = 0 then none
  else if target_size.2 = 0 then none
  else
    let img_aspect_ratio : ℚ := (img.width : ℚ) / (img.height : ℚ)
    let target_aspect_ratio : ℚ := (target_size.1 : ℚ) / (target_size.2 : ℚ)
    let dims : Option (Int × Int) :=
      if img_aspect_ratio > target_aspect_ratio then
        let new_height : Int := target_size.2
        some (pyInt ((new_height : ℚ) * img_aspect_ratio), new_height)
      else if img_aspect_ratio = 0 then none
      else
        let new_width : Int := target_size.1
        some (new_width, pyInt ((new_width : ℚ) / img_aspect_ratio))
    match dims with
    | none => none
    | some (new_width, new_height) =>
      let resized_img : PILImage := ⟨new_width.toNat, new_height.toNat⟩
      let new_img : PILImage := ⟨target_size.1, target_size.2⟩
      let paste_x := Int.fdiv ((target_size.1 : Int) - new_width) 2
      let paste_y := Int.fdiv ((target_size.2 : Int) - new_height) 2
      some ⟨new_img, resized_img, paste_x, paste_y⟩

/-- `add_background(foreground, background_color, target_size)`: a fresh
opaque RGB canvas of `target_size` with the foreground pasted on it. -/
def add_background (_foreground : PILImage) (_background_color : String)
    (target_size : Nat × Nat) : PILImage :=
  ⟨target_size.1, target_size.2⟩

/-- `add_background1(foreground, background_file, target_size)`: opens the
background file, stretches it to `target_size`, pastes the foreground and
flattens to RGB; opening can raise. -/
def add_background1 (env : Env) (_foreground : PILImage)
    (background_file : String) (target_size : Nat × Nat) :
    Except PyErr PILImage :=
  match imageOpen env (.str background_file) with
  | .error e => .error e
  | .ok _bg => .ok ⟨target_size.1, target_size.2⟩

/-- `input_file if isinstance(input_file, str) else input_file.name` from
`process_image` lines 119-122; an object without a `name` attribute makes
the attribute access raise. -/
def img_name_of (v : PyInput) : Except PyErr String :=
  match v with
  | .str s => .ok s
  | .file n _ => .ok n
  | .other => .error (.attributeError "object has no attribute name")

/-- The `str()` rendering of an input used in the error messages of
`process_image`. -/
def inputRepr : PyInput → String
  | .str s => s
  | .file n _ => "UploadedFile " ++ n
  | .other => "object"

/-- The message carried by an exception value. -/
def PyErr.message : PyErr → String
  | .fileNotFound m => m
  | .valueError m => m
  | .zeroDivisionError m => m
  | .attributeError m => m
  | .unidentifiedImageError m => m

/-- The `st.error` text produced by the two `except` clauses of
`process_image` lines 141-144: `FileNotFoundError` has its own handler,
every other exception falls to the generic `except Exception` handler. -/
def catchMessage (input_file : PyInput) (e : PyErr) : String :=
  match e with
  | .fileNotFound m => "Error processing " ++ inputRepr input_file ++ ": " ++ m
  | _ => "An error occurred while processing " ++ inputRepr input_file ++ ": " ++ e.message

/-- The `try` block body of `process_image` for one input (lines 116-140).
`Except.ok none` is the `return None` executed when `detect_face_and_crop`
yields the no-face sentinel; `Except.ok (some (img, env))` is a fully
processed item (the final image was appended and saved to `output_path`);
`Except.error (e, env)` is an exception escaping to the except clauses,
with the filesystem state at raise time. -/
def process_image_try (env : Env) (input_file : PyInput) (background : String)
    (output_path : String) (target_size : Nat × Nat) :
    Except (PyErr × Env) (Option (PILImage × Env)) :=
  match remove_background env input_file with
  | .error e => .error (e, env)
  | .ok (img_path, env₁) =>
    match img_name_of input_file with
    | .error e => .error (e, env₁)
    | .ok _img_name =>
      match detect_face_and_crop env₁ img_path with
      | .error e => .error (e, env₁)
      | .ok none => .ok none
      | .ok (some cropped_img) =>
        match resize_and_center_image cropped_img target_size with
        | none => .error (.zeroDivisionError "division by zero", env₁)
        | some rc =>
          let resized_img := rc.canvas
          let finalRes : Except PyErr PILImage :=
            if strHeadIs background '#' then
              .ok (add_background resized_img background target_size)
            else
              add_background1 env₁ resized_img (osPathJoin "bg" background) target_size
          match finalRes with
          | .error e => .error (e, env₁)
          | .ok final_img =>
            let env₂ := env₁.writeFile output_path (env₁.encodeJpeg final_img)
            .ok (some (final_img, env₂))

/-- The three ways one loop iteration of `process_image` can end. -/
inductive ItemStep where
  | noFace
  | ok (img : PILImage) (env₁ : Env)
  | caught (msg : String) (env₁ : Env)

/-- One iteration of the `for input_file in input_files` loop: the `try`
body together with the two `except` clauses. -/
def process_image_step (env : Env) (input_file : PyInput) (background : String)
    (output_path : String) (target_size : Nat × Nat) : ItemStep :=
  match process_image_try env input_file background output_path target_size with
  | .ok none => .noFace
  | .ok (some (img, env₁)) => .ok img env₁
  | .error (e, env₁) => .caught (catchMessage input_file e) env₁

/-- The loop of `process_image` lines 115-146.  `processed` is the
`processed_images` accumulator and `msgs` collects the `st.error` texts.
The first component of the result is the Python return value: `none` for
the `return None` taken on the no-face sentinel, otherwise the list. -/
def process_image_loop (env : Env) (inputs : List PyInput) (background : String)
    (output_path : String) (target_size : Nat × Nat)
    (processed : List PILImage) (msgs : List String) :
    Option (List PILImage) × List String :=
  match inputs with
  | [] => (some processed, msgs)
  | input_file :: rest =>
    match process_image_step env input_file background output_path target_size with
    | .noFace => (none, msgs)
    | .ok img env₁ =>
        process_image_loop env₁ rest background output_path target_size
          (processed ++ [img]) msgs
    | .caught m env₁ =>
        process_image_loop env₁ rest background output_path target_size
          processed (msgs ++ [m])

/-- The argument of `process_image`: a bare input or an actual list. -/
inductive ProcArg where
  | single (v : PyInput)
  | batch (vs : List PyInput)

/-- Lines 112-113: a non-list argument is wrapped into a one-element list. -/
def normalizeInputs : ProcArg → List PyInput
  | .single v => [v]
  | .batch vs => vs

/-- `process_image(input_files, background, output_path, target_size)` from
`web.py` lines 109-146; in the script `target_size` defaults to (350, 450). -/
def process_image (env : Env) (input_files : ProcArg) (background : String)
    (output_path : String) (target_size : Nat × Nat) :
    Option (List PILImage) × List String :=
  process_image_loop env (normalizeInputs input_files) background output_path
    target_size [] []

/-! ### Concrete worlds used by the witnesses and counterexamples -/

/-- A world where both libraries are present, every path holds the same
bytes, every byte string decodes to a 100 x 100 image, and the detector
finds no face. -/
def envNoFace : Env :=
  { rembgAvailable := true
    mtcnnAvailable := true
    fs := fun _ => some [1]
    rembg := fun b => b
    decode := fun _ => some ⟨100, 100⟩
    detectFaces := fun _ => []
    encodeJpeg := fun _ => [2] }

/-- Like `envNoFace`, but the single detection has confidence exactly 0.80. -/
def envConfEq : Env :=
  { envNoFace with detectFaces := fun _ => [⟨10, 10, 20, 20, 0.8⟩] }

/-- Like `envNoFace`, but the single detection has confidence 0.81. -/
def envConfGt : Env :=
  { envNoFace with detectFaces := fun _ => [⟨10, 10, 20, 20, 0.81⟩] }

/-- A world whose images are 200 x 200 and whose detector returns two
faces, the second with the higher confidence. -/
def envTwoFaces : Env :=
  { envNoFace with
    decode := fun _ => some ⟨200, 200⟩
    detectFaces := fun _ => [⟨10, 10, 20, 20, 0.85⟩, ⟨0, 0, 100, 100, 0.95⟩] }

/-- A world where both libraries are present but no file exists at all. -/
def envEmptyFs : Env :=
  { envNoFace with fs := fun _ => none }

/-- A world where the only existing file is the absolute path
`/tmp/pic.png`; in particular nothing exists under `original/`. -/
def envAbsOnly : Env :=
  { envNoFace with fs := fun p => if p = "/tmp/pic.png" then some [7] else none }

/-! ### Helper lemmas -/

/-- `pyInt` agrees with the floor on nonnegative arguments. -/
lemma pyInt_eq_floor {q : ℚ} (h : 0 ≤ q) : pyInt q = ⌊q⌋ := if_pos h

/-- `pyInt` is nonnegative on nonnegative arguments. -/
lemma pyInt_nonneg {q : ℚ} (h : 0 ≤ q) : 0 ≤ pyInt q := by
  rw [pyInt_eq_floor h]
  exact Int.floor_nonneg.mpr h

/-- Unfolding `detect_face_and_crop` when the detector is available, the
image opens, and the detection list is nonempty: the function inspects
only the head of the list and compares its confidence against 0.8. -/
lemma detect_face_and_crop_of_faces
    (env : Env) (p : String) (img : PILImage) (face : Detection)
    (rest : List Detection)
    (hM : env.mtcnnAvailable = true)
    (hopen : imageOpen env (.str p) = .ok img)
    (hfaces : env.detectFaces img = face :: rest) :
    detect_face_and_crop env (.str p)
      = if face.confidence > 0.8
        then .ok (some (img.crop
          (paddedCropBounds img face.x face.y face.w face.h)))
        else .ok none := by
  simp only [detect_face_and_crop, hM, Bool.true_eq_false, if_false, hopen, hfaces]

/-! ### Claim C2 -/

/-- Claim C2: for every detection list returned by the face detector,
`detect_face_and_crop` accepts the inspected (first) detection and crops
exactly when its confidence is strictly greater than 0.8; otherwise it
yields the no-face sentinel. -/
theorem detect_face_confidence_threshold
    (env : Env) (p : String) (img : PILImage) (face : Detection)
    (rest : List Detection)
    (hM : env.mtcnnAvailable = true)
    (hopen : imageOpen env (.str p) = .ok img)
    (hfaces : env.detectFaces img = face :: rest) :
    detect_face_and_crop env (.str p)
      = if face.confidence > 0.8
        then .ok (some (img.crop
          (paddedCropBounds img face.x face.y face.w face.h)))
        else .ok none :=
  detect_face_and_crop_of_faces env p img face rest hM hopen hfaces

/-- Witness for C2: with a single detection of confidence exactly 0.80 the
sentinel is returned; with confidence 0.81 the padded crop is returned. -/
theorem detect_face_confidence_threshold_witness :
    detect_face_and_crop envConfEq (.str "a.png") = .ok none
    ∧ detect_face_and_crop envConfGt (.str "a.png") = .ok (some ⟨48, 48⟩) := by
  constructor
  · rw [detect_face_confidence_threshold envConfEq "a.png" ⟨100, 100⟩
      ⟨10, 10, 20, 20, 0.8⟩ [] rfl rfl rfl]
    norm_num
  · rw [detect_face_confidence_threshold envConfGt "a.png" ⟨100, 100⟩
      ⟨10, 10, 20, 20, 0.81⟩ [] rfl rfl rfl]
    rw [if_pos (by norm_num)]
    norm_num [PILImage.crop, paddedCropBounds, pyInt]
    decide

/-! ### Claim C5 -/

/-- Counterexample to C5 as stated: in a world whose detector returns a
first face of confidence 0.85 and a second face of confidence 0.95,
`detect_face_and_crop` crops the padded box of the first face (a 48 x 48
crop), not the padded box of the highest-confidence face (a 190 x 190
crop); the two crops differ, so the cropped detection is not the
highest-confidence one. -/
theorem face_selection_not_highest_confidence :
    detect_face_and_crop envTwoFaces (.str "a.png") = .ok (some ⟨48, 48⟩)
    ∧ envTwoFaces.detectFaces ⟨200, 200⟩
        = [⟨10, 10, 20, 20, 0.85⟩, ⟨0, 0, 100, 100, 0.95⟩]
    ∧ ((0.85 : ℚ) < 0.95)
    ∧ PILImage.crop ⟨200, 200⟩ (paddedCropBounds ⟨200, 200⟩ 0 0 100 100)
        = ⟨190, 190⟩
    ∧ (⟨48, 48⟩ : PILImage) ≠ ⟨190, 190⟩ := by
  refine ⟨?_, rfl, by norm_num, ?_, by decide⟩
  · rw [detect_face_and_crop_of_faces envTwoFaces "a.png" ⟨200, 200⟩
      ⟨10, 10, 20, 20, 0.85⟩ [⟨0, 0, 100, 100, 0.95⟩] rfl rfl rfl]
    rw [if_pos (by norm_num)]
    norm_num [PILImage.crop, paddedCropBounds, pyInt]
    decide
  · norm_num [PILImage.crop, paddedCropBounds, pyInt]
    decide

/-- Claim C5, amended: the detection whose box `detect_face_and_crop` uses
for cropping is the first detection of the list returned by the detector
(detector output order is trusted, not re-ranked by confidence). -/
theorem face_selection_first_detection
    (env : Env) (p : String) (img : PILImage) (face : Detection)
    (rest : List Detection)
    (hM : env.mtcnnAvailable = true)
    (hopen : imageOpen env (.str p) = .ok img)
    (hfaces : env.detectFaces img = face :: rest)
    (hconf : face.confidence > 0.8) :
    detect_face_and_crop env (.str p)
      = .ok (some (img.crop
          (paddedCropBounds img face.x face.y face.w face.h))) := by
  rw [detect_face_and_crop_of_faces env p img face rest hM hopen hfaces]
  exact if_pos hconf

/-- Witness for the amended C5: in the two-face world the crop is the
padded box of the first detection. -/
theorem face_selection_first_detection_witness :
    detect_face_and_crop envTwoFaces (.str "b.png")
      = .ok (some (PILImage.crop ⟨200, 200⟩
          (paddedCropBounds ⟨200, 200⟩ 10 10 20 20))) :=
  face_selection_first_detection envTwoFaces "b.png" ⟨200, 200⟩
    ⟨10, 10, 20, 20, 0.85⟩ [⟨0, 0, 100, 100, 0.95⟩] rfl rfl rfl (by norm_num)

/-! ### Claim C10 -/

/-- Claim C10: when face detection is available, `detect_face_and_crop`
called with any non-string argument performs no detection and returns the
value that is indistinguishable from the no-face sentinel (the implicit
`return None`): this holds for every world with the detector available,
whatever its filesystem and detector answer. -/
theorem detect_face_nonstring_sentinel
    (env : Env) (v : PyInput)
    (hM : env.mtcnnAvailable = true)
    (hv : ∀ s, v ≠ PyInput.str s) :
    detect_face_and_crop env v = .ok none := by
  cases v with
  | str s => exact absurd rfl (hv s)
  | file n c => simp [detect_face_and_crop, hM]
  | other => simp [detect_face_and_crop, hM]

/-- Witness for C10: a file-like upload object, passed directly to the
face locator, yields the sentinel even though the world detects a
high-confidence face in every image. -/
theorem detect_face_nonstring_sentinel_witness :
    detect_face_and_crop envConfGt (.file "u.png" [9]) = .ok none :=
  detect_face_nonstring_sentinel envConfGt (.file "u.png" [9]) rfl
    (by intro s h; cases h)

/-! ### Claim C3 -/

/-- Counterexample to C3 as stated: for a detector box lying entirely
outside the image (x = 500 on a 100 x 100 image) the padded crop window
has its lower x bound strictly above its upper x bound, so the invariant
`0 ≤ lower ≤ upper ≤ dimension` fails. -/
theorem paddedCrop_clamp_counterexample :
    ¬ ((paddedCropBounds ⟨100, 100⟩ 500 0 10 10).lower_x
        ≤ (paddedCropBounds ⟨100, 100⟩ 500 0 10 10).upper_x) := by
  norm_num [paddedCropBounds, pyInt]

/-- Claim C3, amended: for every detected face box that lies within the
bounds of the source image, the padded crop window satisfies
`0 ≤ lower_x ≤ upper_x ≤ width` and `0 ≤ lower_y ≤ upper_y ≤ height`, and
a box touching an image edge has lower bound exactly 0 on that axis. -/
theorem paddedCrop_clamp_invariant
    (img : PILImage) (x y w h : Int)
    (hx : 0 ≤ x) (hy : 0 ≤ y) (hw : 0 ≤ w) (hh : 0 ≤ h)
    (hxw : x + w ≤ (img.width : Int)) (hyh : y + h ≤ (img.height : Int)) :
    0 ≤ (paddedCropBounds img x y w h).lower_x
    ∧ (paddedCropBounds img x y w h).lower_x
        ≤ (paddedCropBounds img x y w h).upper_x
    ∧ (paddedCropBounds img x y w h).upper_x ≤ (img.width : Int)
    ∧ 0 ≤ (paddedCropBounds img x y w h).lower_y
    ∧ (paddedCropBounds img x y w h).lower_y
        ≤ (paddedCropBounds img x y w h).upper_y
    ∧ (paddedCropBounds img x y w h).upper_y ≤ (img.height : Int)
    ∧ (x = 0 → (paddedCropBounds img x y w h).lower_x = 0)
    ∧ (y = 0 → (paddedCropBounds img x y w h).lower_y = 0) := by
  have hwq : (0 : ℚ) ≤ (w : ℚ) * 0.9 :=
    mul_nonneg (by exact_mod_cast hw) (by norm_num)
  have hhq : (0 : ℚ) ≤ (h : ℚ) * 0.9 :=
    mul_nonneg (by exact_mod_cast hh) (by norm_num)
  have hwp : 0 ≤ pyInt ((w : ℚ) * 0.9) := pyInt_nonneg hwq
  have hhp : 0 ≤ pyInt ((h : ℚ) * 0.9) := pyInt_nonneg hhq
  simp only [paddedCropBounds]
  omega

/-- Witness for the amended C3: a 30 x 40 box at (0, 5) inside a
100 x 100 image, touching the left edge. -/
theorem paddedCrop_clamp_invariant_witness :
    0 ≤ (paddedCropBounds ⟨100, 100⟩ 0 5 30 40).lower_x
    ∧ (paddedCropBounds ⟨100, 100⟩ 0 5 30 40).lower_x
        ≤ (paddedCropBounds ⟨100, 100⟩ 0 5 30 40).upper_x
    ∧ (paddedCropBounds ⟨100, 100⟩ 0 5 30 40).upper_x
        ≤ ((⟨100, 100⟩ : PILImage).width : Int)
    ∧ 0 ≤ (paddedCropBounds ⟨100, 100⟩ 0 5 30 40).lower_y
    ∧ (paddedCropBounds ⟨100, 100⟩ 0 5 30 40).lower_y
        ≤ (paddedCropBounds ⟨100, 100⟩ 0 5 30 40).upper_y
    ∧ (paddedCropBounds ⟨100, 100⟩ 0 5 30 40).upper_y
        ≤ ((⟨100, 100⟩ : PILImage).height : Int)
    ∧ ((0 : Int) = 0 → (paddedCropBounds ⟨100, 100⟩ 0 5 30 40).lower_x = 0)
    ∧ ((5 : Int) = 0 → (paddedCropBounds ⟨100, 100⟩ 0 5 30 40).lower_y = 0) :=
  paddedCrop_clamp_invariant ⟨100, 100⟩ 0 5 30 40 (by norm_num) (by norm_num)
    (by norm_num) (by norm_num) (by norm_num) (by norm_num)

/-! ### Claim C4 -/

/-- Counterexample to C4 as stated: for a target size with zero height the
aspect-ratio computation divides by zero (the function raises instead of
producing a canvas), so no output canvas equals the target size. -/
theorem resize_zero_target_height_counterexample :
    resize_and_center_image ⟨100, 100⟩ (350, 0) = none := by
  simp [resize_and_center_image]

/-- Claim C4, amended: for every source image with positive dimensions and
every target size with positive height, `resize_and_center_image` produces
a canvas whose dimensions exactly equal the target size, and the scaled
image pasted onto it equals the target along the chosen axis and is at
least as large as the target along the other axis (fill semantics). -/
theorem resize_fills_canvas
    (img : PILImage) (target_size : Nat × Nat)
    (hw : 0 < img.width) (hh : 0 < img.height) (hth : 0 < target_size.2) :
    ∃ rc : CenteredCanvas,
      resize_and_center_image img target_size = some rc
      ∧ rc.canvas.width = target_size.1
      ∧ rc.canvas.height = target_size.2
      ∧ ((rc.resized.height = target_size.2
            ∧ target_size.1 ≤ rc.resized.width)
         ∨ (rc.resized.width = target_size.1
            ∧ target_size.2 ≤ rc.resized.height)) := by
  have hh0 : img.height ≠ 0 := Nat.pos_iff_ne_zero.mp hh
  have hth0 : target_size.2 ≠ 0 := Nat.pos_iff_ne_zero.mp hth
  have hhq : (0 : ℚ) < (img.height : ℚ) := by exact_mod_cast hh
  have hwq : (0 : ℚ) < (img.width : ℚ) := by exact_mod_cast hw
  have hthq : (0 : ℚ) < (target_size.2 : ℚ) := by exact_mod_cast hth
  have hr : (0 : ℚ) < (img.width : ℚ) / (img.height : ℚ) := div_pos hwq hhq
  simp only [resize_and_center_image, if_neg hh0, if_neg hth0]
  by_cases hc :
      (img.width : ℚ) / (img.height : ℚ)
        > (target_size.1 : ℚ) / (target_size.2 : ℚ)
  · simp only [if_pos hc]
    have hc' : (target_size.1 : ℚ) * (img.height : ℚ)
        < (img.width : ℚ) * (target_size.2 : ℚ) :=
      (div_lt_div_iff₀ hthq hhq).mp hc
    have h2 : (target_size.1 : ℚ)
        < (target_size.2 : ℚ) * ((img.width : ℚ) / (img.height : ℚ)) := by
      rw [mul_div_assoc']
      rw [lt_div_iff₀ hhq]
      nlinarith [hc']
    have hq0 : (0 : ℚ)
        ≤ (target_size.2 : ℚ) * ((img.width : ℚ) / (img.height : ℚ)) :=
      le_of_lt (mul_pos hthq hr)
    have hple : (target_size.1 : Int)
        ≤ pyInt ((target_size.2 : ℚ) * ((img.width : ℚ) / (img.height : ℚ))) := by
      rw [pyInt_eq_floor hq0]
      exact Int.le_floor.mpr (by exact_mod_cast h2.le)
    refine ⟨_, rfl, rfl, rfl, Or.inl ⟨?_, ?_⟩⟩
    · simp
    · simp only [Int.cast_natCast]
      omega
  · simp only [if_neg hc, if_neg hr.ne']
    have hrle : (img.width : ℚ) / (img.height : ℚ)
        ≤ (target_size.1 : ℚ) / (target_size.2 : ℚ) := not_lt.mp hc
    have htq : (0 : ℚ) < (target_size.1 : ℚ) / (target_size.2 : ℚ) :=
      lt_of_lt_of_le hr hrle
    have htwq : (0 : ℚ) < (target_size.1 : ℚ) := by
      rcases div_pos_iff.mp htq with ⟨h1, _⟩ | ⟨_, h2⟩
      · exact h1
      · exact absurd hthq (not_lt.mpr h2.le)
    have hdiv_le : (target_size.1 : ℚ) / ((target_size.1 : ℚ) / (target_size.2 : ℚ))
        ≤ (target_size.1 : ℚ) / ((img.width : ℚ) / (img.height : ℚ)) :=
      div_le_div_of_nonneg_left htwq.le hr hrle
    have hcancel : (target_size.1 : ℚ) / ((target_size.1 : ℚ) / (target_size.2 : ℚ))
        = (target_size.2 : ℚ) := by
      field_simp
    have h2 : (target_size.2 : ℚ)
        ≤ (target_size.1 : ℚ) / ((img.width : ℚ) / (img.height : ℚ)) := by
      rw [← hcancel]
      exact hdiv_le
    have hq0 : (0 : ℚ)
        ≤ (target_size.1 : ℚ) / ((img.width : ℚ) / (img.height : ℚ)) :=
      le_of_lt (div_pos htwq hr)
    have hple : (target_size.2 : Int)
        ≤ pyInt ((target_size.1 : ℚ) / ((img.width : ℚ) / (img.height : ℚ))) := by
      rw [pyInt_eq_floor hq0]
      exact Int.le_floor.mpr (by exact_mod_cast h2)
    refine ⟨_, rfl, rfl, rfl, Or.inr ⟨?_, ?_⟩⟩
    · simp
    · simp only [Int.cast_natCast]
      omega

/-- Witness for the amended C4: a square 100 x 100 source image and the
default (350, 450) target. -/
theorem resize_fills_canvas_witness :
    ∃ rc : CenteredCanvas,
      resize_and_center_image ⟨100, 100⟩ (350, 450) = some rc
      ∧ rc.canvas.width = (350, 450).1
      ∧ rc.canvas.height = (350, 450).2
      ∧ ((rc.resized.height = (350, 450).2
            ∧ (350, 450).1 ≤ rc.resized.width)
         ∨ (rc.resized.width = (350, 450).1
            ∧ (350, 450).2 ≤ rc.resized.height)) :=
  resize_fills_canvas ⟨100, 100⟩ (350, 450) (by norm_num) (by norm_num)
    (by norm_num)

/-! ### Claim C1 -/

/-- Claim C1: all-or-nothing batch on a missing face.  At any point of the
batch loop — whatever the items already finished (`processed`) and the
items still pending (`rest`) — if background removal hands the current
item to the face locator and `detect_face_and_crop` yields the no-face
sentinel, `process_image` returns the distinguished no-face result `none`,
never a partial list. -/
theorem process_image_noface_aborts_batch
    (env env₁ : Env) (x img_path : PyInput) (rest : List PyInput)
    (background output_path : String) (target_size : Nat × Nat)
    (processed : List PILImage) (msgs : List String)
    (hx : x ≠ PyInput.other)
    (hrm : remove_background env x = .ok (img_path, env₁))
    (hdet : detect_face_and_crop env₁ img_path = .ok none) :
    (process_image_loop env (x :: rest) background output_path target_size
        processed msgs).1 = none := by
  obtain ⟨n, hn⟩ : ∃ n, img_name_of x = .ok n := by
    cases x with
    | str s => exact ⟨s, rfl⟩
    | file n c => exact ⟨n, rfl⟩
    | other => exact absurd rfl hx
  simp only [process_image_loop, process_image_step, process_image_try,
    hrm, hn, hdet]

/-- Witness for C1: a three-item batch in a world that never detects a
face, entered with one already-finished 350 x 450 image, still returns
`none` rather than the partial list. -/
theorem process_image_noface_aborts_batch_witness :
    (process_image_loop envNoFace
        [.str "b.png", .str "c.png"] "#ffffff" "output.jpg" (350, 450)
        [⟨350, 450⟩] []).1 = none :=
  process_image_noface_aborts_batch envNoFace
    (envNoFace.writeFile "masked/img_maske.png" (envNoFace.rembg [1]))
    (.str "b.png") (.str "masked/img_maske.png") [.str "c.png"]
    "#ffffff" "output.jpg" (350, 450) [⟨350, 450⟩] []
    (by decide) rfl rfl

/-! ### Claim C6 -/

/-- Claim C6: per-item failure containment.  If the `try` body for one
item raises any exception, the loop catches it at the per-item boundary,
appends the user-facing `st.error` message, leaves the processed list
unchanged (the failed item's output is simply absent), and continues with
the remaining items. -/
theorem per_item_exception_containment
    (env env₁ : Env) (x : PyInput) (rest : List PyInput)
    (background output_path : String) (target_size : Nat × Nat)
    (processed : List PILImage) (msgs : List String) (e : PyErr)
    (h : process_image_try env x background output_path target_size
          = .error (e, env₁)) :
    process_image_loop env (x :: rest) background output_path target_size
        processed msgs
      = process_image_loop env₁ rest background output_path target_size
          processed (msgs ++ [catchMessage x e]) := by
  simp only [process_image_loop, process_image_step, h]

/-- Witness for C6: a batch whose first item names a file missing from
the world raises `FileNotFoundError`; the loop reports it and goes on
with the second item. -/
theorem per_item_exception_containment_witness :
    process_image_loop envEmptyFs
        [.str "nofile.png", .str "nofile2.png"] "#ffffff" "output.jpg"
        (350, 450) [] []
      = process_image_loop envEmptyFs [.str "nofile2.png"] "#ffffff"
          "output.jpg" (350, 450) []
          ([] ++ [catchMessage (.str "nofile.png")
            (.fileNotFound
              ("The file " ++ osPathJoin "original" "nofile.png"
                ++ " does not exist."))]) :=
  per_item_exception_containment envEmptyFs envEmptyFs
    (.str "nofile.png") [.str "nofile2.png"] "#ffffff" "output.jpg"
    (350, 450) [] []
    (.fileNotFound
      ("The file " ++ osPathJoin "original" "nofile.png"
        ++ " does not exist."))
    rfl

/-! ### Claim C9 -/

/-- Every item of the batch raises an exception that the per-item handler
catches (and in particular no item reaches the no-face sentinel), with the
filesystem state threaded from item to item. -/
def allItemsRaise (env : Env) (inputs : List PyInput) (background : String)
    (output_path : String) (target_size : Nat × Nat) : Prop :=
  match inputs with
  | [] => True
  | x :: rest => ∃ e env₁,
      process_image_try env x background output_path target_size
          = .error (e, env₁)
      ∧ allItemsRaise env₁ rest background output_path target_size

/-- If every item raises a caught exception, the loop returns exactly the
accumulator it was entered with. -/
lemma process_image_loop_of_allItemsRaise
    (background output_path : String) (target_size : Nat × Nat) :
    ∀ (inputs : List PyInput) (env : Env) (processed : List PILImage)
      (msgs : List String),
      allItemsRaise env inputs background output_path target_size →
      (process_image_loop env inputs background output_path target_size
          processed msgs).1 = some processed := by
  intro inputs
  induction inputs with
  | nil => intro env processed msgs _; rfl
  | cons x rest ih =>
    intro env processed msgs h
    obtain ⟨e, env₁, hstep, hrest⟩ := h
    simp only [process_image_loop, process_image_step, hstep]
    exact ih env₁ processed (msgs ++ [catchMessage x e]) hrest

/-- Claim C9: a batch in which every item raises a caught exception yields
the empty list `some []`, a value distinct from the no-face sentinel
`none`. -/
theorem all_failures_empty_list
    (env : Env) (args : ProcArg) (background output_path : String)
    (target_size : Nat × Nat)
    (h : allItemsRaise env (normalizeInputs args) background output_path
          target_size) :
    (process_image env args background output_path target_size).1 = some []
    ∧ (process_image env args background output_path target_size).1 ≠ none := by
  have hmain :
      (process_image env args background output_path target_size).1
        = some [] :=
    process_image_loop_of_allItemsRaise background output_path target_size
      (normalizeInputs args) env [] [] h
  exact ⟨hmain, by rw [hmain]; exact Option.some_ne_none []⟩

/-- Witness for C9: a two-item batch in a world with an empty filesystem;
the first item is not a path or upload at all (ValueError), the second
names a missing file (FileNotFoundError); the result is `some []`. -/
theorem all_failures_empty_list_witness :
    (process_image envEmptyFs (.batch [.other, .str "gone.png"]) "#ffffff"
        "output.jpg" (350, 450)).1 = some []
    ∧ (process_image envEmptyFs (.batch [.other, .str "gone.png"]) "#ffffff"
        "output.jpg" (350, 450)).1 ≠ none :=
  all_failures_empty_list envEmptyFs (.batch [.other, .str "gone.png"])
    "#ffffff" "output.jpg" (350, 450)
    ⟨.valueError "Input must be a filename string or a file-like object with a name attribute.",
     envEmptyFs, rfl,
     ⟨.fileNotFound
        ("The file " ++ osPathJoin "original" "gone.png"
          ++ " does not exist."),
      envEmptyFs, rfl, trivial⟩⟩

/-! ### Claim C7 -/

/-- Claim C7: the error contract of `remove_background` (with the matting
library available): it raises `FileNotFoundError` exactly when a string
input names a source path that does not exist, raises `ValueError` exactly
when the input is neither a filename string nor a file-like byte source,
and in all other cases returns the scratch-file path without raising. -/
theorem remove_background_error_contract
    (env : Env) (v : PyInput) (hR : env.rembgAvailable = true) :
    ((∃ m, remove_background env v = .error (.fileNotFound m)) ↔
      (∃ s, v = .str s ∧ env.fs (osPathJoin "original" s) = none))
    ∧ ((∃ m, remove_background env v = .error (.valueError m)) ↔
        v = .other)
    ∧ ((∀ s, v = .str s → env.fs (osPathJoin "original" s) ≠ none) →
        v ≠ .other →
        (remove_background env v).map Prod.fst
          = .ok (.str "masked/img_maske.png")) := by
  refine ⟨?_, ?_, ?_⟩
  · constructor
    · rintro ⟨m, hm⟩
      cases v with
      | str s =>
        refine ⟨s, rfl, ?_⟩
        by_contra hne
        obtain ⟨c, hc⟩ := Option.ne_none_iff_exists'.mp hne
        simp [remove_background, hR, hc] at hm
      | file n c => simp [remove_background, hR] at hm
      | other => simp [remove_background, hR] at hm
    · rintro ⟨s, rfl, hfs⟩
      exact ⟨"The file " ++ osPathJoin "original" s ++ " does not exist.",
        by simp [remove_background, hR, hfs]⟩
  · constructor
    · rintro ⟨m, hm⟩
      cases v with
      | str s =>
        cases hc : env.fs (osPathJoin "original" s) with
        | none => simp [remove_background, hR, hc] at hm
        | some c => simp [remove_background, hR, hc] at hm
      | file n c => simp [remove_background, hR] at hm
      | other => rfl
    · rintro rfl
      exact ⟨"Input must be a filename string or a file-like object with a name attribute.",
        by simp [remove_background, hR]⟩
  · intro hstr hother
    cases v with
    | str s =>
      obtain ⟨c, hc⟩ :=
        Option.ne_none_iff_exists'.mp (hstr s rfl)
      simp [remove_background, hR, hc, Except.map]
    | file n c => simp [remove_background, hR, Except.map]
    | other => exact absurd rfl hother

/-- Witness for C7, instantiated at a world where every file exists and a
plain filename input. -/
theorem remove_background_error_contract_witness :
    ((∃ m, remove_background envNoFace (.str "a.png")
          = .error (.fileNotFound m)) ↔
      (∃ s, PyInput.str "a.png" = .str s
        ∧ envNoFace.fs (osPathJoin "original" s) = none))
    ∧ ((∃ m, remove_background envNoFace (.str "a.png")
          = .error (.valueError m)) ↔ PyInput.str "a.png" = .other)
    ∧ ((∀ s, PyInput.str "a.png" = .str s →
          envNoFace.fs (osPathJoin "original" s) ≠ none) →
        PyInput.str "a.png" ≠ .other →
        (remove_background envNoFace (.str "a.png")).map Prod.fst
          = .ok (.str "masked/img_maske.png")) :=
  remove_background_error_contract envNoFace (.str "a.png") rfl

/-! ### Claim C8 -/

/-- Counterexample to C8 as stated: for the absolute string input
`/tmp/pic.png`, `os.path.join` discards the `original` component, so the
joined path is the input itself; in a world where that absolute path
exists (and nothing under `original/` does) `remove_background` reads it
and succeeds instead of rejecting the input as missing. -/
theorem remove_background_absolute_path_counterexample :
    osPathJoin "original" "/tmp/pic.png" = "/tmp/pic.png"
    ∧ (remove_background envAbsOnly (.str "/tmp/pic.png")).map Prod.fst
        = .ok (.str "masked/img_maske.png")
    ∧ envAbsOnly.fs "original//tmp/pic.png" = none := by
  refine ⟨by decide, rfl, by decide⟩

/-- Claim C8, amended: for every relative string input `f` (one not
starting with a separator), the joined path is `original/f`,
`remove_background` raises `FileNotFoundError` exactly when that joined
path is missing, and on success the scratch file receives the matted
bytes of that joined path — the bytes of `f` itself are never read. -/
theorem remove_background_relative_resolves_in_original
    (env : Env) (f : String)
    (hR : env.rembgAvailable = true)
    (hrel : strHeadIs f '/' = false) :
    osPathJoin "original" f = "original/" ++ f
    ∧ (remove_background env (.str f)
          = .error (.fileNotFound
              ("The file " ++ ("original/" ++ f) ++ " does not exist."))
        ↔ env.fs ("original/" ++ f) = none)
    ∧ (∀ content, env.fs ("original/" ++ f) = some content →
        remove_background env (.str f)
          = .ok (.str "masked/img_maske.png",
              env.writeFile "masked/img_maske.png" (env.rembg content))) := by
  have hjoin : osPathJoin "original" f = "original/" ++ f := by
    rw [osPathJoin, if_neg (by simp [hrel]), if_neg (by decide)]
    rfl
  refine ⟨hjoin, ?_, ?_⟩
  · cases hfs : env.fs ("original/" ++ f) with
    | none => simp [remove_background, hR, hjoin, hfs]
    | some c => simp [remove_background, hR, hjoin, hfs]
  · intro content hc
    simp [remove_background, hR, hjoin, hc]

/-- Witness for the amended C8: the relative name `gone.png` in the world
with an empty filesystem. -/
theorem remove_background_relative_resolves_in_original_witness :
    osPathJoin "original" "gone.png" = "original/" ++ "gone.png"
    ∧ (remove_background envEmptyFs (.str "gone.png")
          = .error (.fileNotFound
              ("The file " ++ ("original/" ++ "gone.png")
                ++ " does not exist."))
        ↔ envEmptyFs.fs ("original/" ++ "gone.png") = none)
    ∧ (∀ content, envEmptyFs.fs ("original/" ++ "gone.png") = some content →
        remove_background envEmptyFs (.str "gone.png")
          = .ok (.str "masked/img_maske.png",
              envEmptyFs.writeFile "masked/img_maske.png"
                (envEmptyFs.rembg content))) :=
  remove_background_relative_resolves_in_original envEmptyFs "gone.png" rfl
    (by decide)
